import Mathlib

/-!
Shallow embedding of the Streamlink session coordinator
(src/streamlink/session.py) together with the parts of its collaborators
that the session code visibly relies on.  Pure Python functions become Lean
functions; the mutable session object becomes explicit state passing; code
that can raise becomes `Except`-valued.  External collaborators that are not
part of the repository (the `requests` transport, Python's `base64` module)
are modelled as oracle parameters, and repository helpers that are absent
from the given sources (`streamlink.utils.update_scheme`,
`streamlink.options.Options`, `HTTPSession.parse_cookies` and friends) are
modelled from the specification, each marked in its doc comment.
-/

namespace StreamlinkSession

/-- Option values routed through the session: Python `None`, booleans,
integers, floats (all defaults are integral, so `Rat` carries them exactly),
strings, string-to-string mappings, string lists, and integer lists
(the `error-http-status-codes` payload). -/
inductive Value where
  | vnone
  | bool (b : Bool)
  | int (n : Int)
  | float (q : Rat)
  | str (s : String)
  | dict (m : List (String × String))
  | list (l : List String)
  | ints (l : List Int)
deriving DecidableEq

/-- Python truthiness of a `Value`, as used by `if value:` tests in
`set_option`. -/
def truthy : Value → Bool
  | .vnone => false
  | .bool b => b
  | .int n => n != 0
  | .float q => q != 0
  | .str s => s != ""
  | .dict m => !m.isEmpty
  | .list l => !l.isEmpty
  | .ints l => !l.isEmpty

/-- Modelled from the spec: `streamlink.options.Options` (not under src/) is
a generic mapping from string keys to values; `set` replaces an existing
entry in place or appends a new one. -/
def optSet : List (String × Value) → String → Value → List (String × Value)
  | [], k, v => [(k, v)]
  | (k', v') :: rest, k, v =>
    if k' = k then (k', v) :: rest else (k', v') :: optSet rest k v

/-- Modelled from the spec: `Options.get` returns the stored value, or
`None` (here `Value.vnone`) when the key is absent. -/
def optGet : List (String × Value) → String → Value
  | [], _ => .vnone
  | (k', v') :: rest, k => if k' = k then v' else optGet rest k

/-- Update of a string-to-string mapping (cookie jar, header map, query
parameter map): replace in place or append, mirroring `dict.update` /
`cookiejar.update` one key at a time. -/
def kvSet : List (String × String) → String → String → List (String × String)
  | [], k, v => [(k, v)]
  | (k', v') :: rest, k, v =>
    if k' = k then (k', v) :: rest else (k', v') :: kvSet rest k v

/-- Merge a list of key/value pairs into a mapping, left to right. -/
def kvMerge (m : List (String × String)) (kvs : List (String × String)) :
    List (String × String) :=
  kvs.foldl (fun acc kv => kvSet acc kv.1 kv.2) m

/-- Lookup in a string-to-string or string-to-value association list. -/
def assocGet {β : Type} : List (String × β) → String → Option β
  | [], _ => none
  | (k', v') :: rest, k => if k' = k then some v' else assocGet rest k

/-- Errors that `set_option` can surface: a Python `KeyError` (escaping from
`dict.pop` in the `interface` branch) and the spec's `InvalidOption` for a
malformed specialized value. -/
inductive SErr where
  | keyError
  | invalidOption
deriving DecidableEq

/-- Modelled from the spec: a scheme is present in a URL string when it
contains the `://` separator. -/
def hasSchemeStr (s : String) : Bool :=
  (s.splitOn "://").length != 1

/-- Modelled from the spec: `streamlink.utils.update_scheme` (not under
src/) prefixes the default scheme when the URL string has none. -/
def updateSchemeStr (default s : String) : String :=
  if hasSchemeStr s then s else default ++ s

/-- Apply `update_scheme` to an option value; Python only ever receives a
string here, and other values are passed through unchanged. -/
def updateSchemeV (default : String) : Value → Value
  | .str s => .str (updateSchemeStr default s)
  | v => v

/-- Modelled from the spec: `HTTPSession.parse_cookies`, `parse_headers`
and `parse_query_params` (not under src/) split the string on the
delimiter and require every segment to be `key=value`; a segment without
`=` is a malformed value (`InvalidOption`). -/
def parseDelim (sep : String) (s : String) :
    Except SErr (List (String × String)) :=
  (s.splitOn sep).foldr
    (fun seg acc => do
      let pairs ← acc
      match seg.splitOn "=" with
      | [] => Except.error SErr.invalidOption
      | [_] => Except.error SErr.invalidOption
      | k :: rest => Except.ok ((k, String.intercalate "=" rest) :: pairs))
    (Except.ok [])

/-- Address families selected by the `ipv4` / `ipv6` options
(`socket.AF_INET` / `socket.AF_INET6`). -/
inductive AF where
  | inet
  | inet6
deriving DecidableEq

/-- State of the HTTP transport collaborator (`api.HTTPSession`, a
`requests.Session`) that `set_option` / `get_option` touch.  An adapter is
modelled by the presence of the `source_address` entry in its pool manager
connection keywords. -/
structure HTTPState where
  proxies : List (String × Value)
  cookies : List (String × String)
  headers : List (String × String)
  params : List (String × String)
  trust_env : Value
  verify : Value
  cert : Value
  timeout : Value
  report_uri : Value
  report_interval : Value
  stop_stream_playing : Value
  error_http_status_codes : Value
  adapters : List (String × Option Value)
deriving DecidableEq

/-- Session state: the generic option store, the transport collaborator
state, the process-global `urllib3` address-family override (None means the
library default `allowed_gai_family`) and the process-global cipher list
mutated by `http-disable-dh`. -/
structure SessionState where
  options : List (String × Value)
  http : HTTPState
  gai_override : Option AF
  ciphers : String
deriving DecidableEq

/-- The default option table of `Streamlink.__init__`, translated verbatim
from session.py (the `rtmp-rtmpdump` default depends on the platform flag
`is_win32`). -/
def defaultOptions (is_win32 : Bool) : List (String × Value) :=
  [ ("interface", .vnone),
    ("ipv4", .bool false),
    ("ipv6", .bool false),
    ("dash-live-edge", .int 3),
    ("hds-live-edge", .float 10),
    ("hds-segment-attempts", .int 3),
    ("hds-segment-threads", .int 1),
    ("hds-segment-timeout", .float 10),
    ("hds-timeout", .float 60),
    ("hls-live-edge", .int 3),
    ("ts-url-add-m3u-url-params", .bool false),
    ("hls-segment-host", .vnone),
    ("hls-segment-attempts", .int 3),
    ("hls-segment-ignore-names", .list []),
    ("hls-segment-threads", .int 1),
    ("hls-segment-timeout", .float 10),
    ("hls-segment-stream-data", .bool false),
    ("hls-timeout", .float 60),
    ("hls-playlist-reload-attempts", .int 3),
    ("hls-playlist-reload-time", .str "default"),
    ("hls-start-offset", .int 0),
    ("hls-duration", .vnone),
    ("http-stream-timeout", .float 60),
    ("hls-token-period", .float 60),
    ("ringbuffer-size", .int (1024 * 1024 * 16)),
    ("rtmp-timeout", .float 60),
    ("rtmp-rtmpdump", .str (if is_win32 then "rtmpdump.exe" else "rtmpdump")),
    ("rtmp-proxy", .vnone),
    ("stream-segment-attempts", .int 3),
    ("stream-segment-threads", .int 1),
    ("stream-segment-timeout", .float 10),
    ("stream-timeout", .float 60),
    ("drm-decrypt-key", .vnone),
    ("drm-temp-dir", .vnone),
    ("stream-max-playback-duration", .int 0),
    ("subprocess-errorlog", .bool false),
    ("subprocess-errorlog-path", .vnone),
    ("ffmpeg-ffmpeg", .vnone),
    ("ffmpeg-fout", .vnone),
    ("ffmpeg-video-transcode", .vnone),
    ("ffmpeg-audio-transcode", .vnone),
    ("ffmpeg-copyts", .bool false),
    ("ffmpeg-start-at-zero", .bool false),
    ("mux-subtitles", .bool false),
    ("locale", .vnone),
    ("user-input-requester", .vnone) ]

/-- A fresh `requests`-backed transport: empty proxy map, empty jars, HTTP
environment trusted, certificates verified, both default adapters mounted
without a `source_address` binding.  Defaults of the report fields are not
given by the sources and are modelled as unset. -/
def freshHTTP : HTTPState :=
  { proxies := []
    cookies := []
    headers := []
    params := []
    trust_env := .bool true
    verify := .bool true
    cert := .vnone
    timeout := .float 20
    report_uri := .vnone
    report_interval := .int 0
    stop_stream_playing := .bool false
    error_http_status_codes := .ints [403]
    adapters := [("https://", none), ("http://", none)] }

/-- A freshly constructed session (before plugin loading, which does not
touch any of these fields). -/
def freshSession (is_win32 : Bool) : SessionState :=
  { options := defaultOptions is_win32
    http := freshHTTP
    gai_override := none
    ciphers := "" }

/-- The adapter loop of the `interface` branch of `set_option`: for every
mounted adapter whose scheme is `http://` or `https://`, a falsy value pops
the `source_address` entry (raising `KeyError` when it is absent, exactly
like `dict.pop` with no default) and a truthy value installs the binding. -/
def interfaceLoop (v : Value) :
    List (String × Option Value) → Except SErr (List (String × Option Value))
  | [] => Except.ok []
  | (scheme, kw) :: rest =>
    if scheme ≠ "http://" ∧ scheme ≠ "https://" then
      (interfaceLoop v rest).map (fun r => (scheme, kw) :: r)
    else if !truthy v then
      match kw with
      | none => Except.error SErr.keyError
      | some _ => (interfaceLoop v rest).map (fun r => (scheme, none) :: r)
    else
      (interfaceLoop v rest).map (fun r => (scheme, some v) :: r)

/-- Update of a string-to-value mapping, used for the proxy dictionary. -/
def kvSetV : List (String × Value) → String → Value → List (String × Value)
  | [], k, v => [(k, v)]
  | (k', v') :: rest, k, v =>
    if k' = k then (k', v) :: rest else (k', v') :: kvSetV rest k v

/-- Translation of `Streamlink.set_option` (session.py lines 296-372).
The external base64 decoder used by the `http-report-uri` branch is an
oracle parameter `b64`. -/
def setOption (b64 : String → String) (st : SessionState) (key : String)
    (v : Value) : Except SErr SessionState :=
  if key = "interface" then
    (interfaceLoop v st.http.adapters).map fun ads =>
      { st with
        http := { st.http with adapters := ads }
        options := optSet st.options key (if truthy v then v else .vnone) }
  else if key = "ipv4" ∨ key = "ipv6" then
    if truthy v then
      Except.ok
        { st with
          options := optSet (optSet st.options key v)
            (if key = "ipv4" then "ipv6" else "ipv4") (.bool false)
          gai_override := some (if key = "ipv4" then AF.inet else AF.inet6) }
    else
      Except.ok
        { st with
          options := optSet st.options key v
          gai_override := none }
  else if key = "http-proxy" then
    let proxies1 := kvSetV st.http.proxies "http" (updateSchemeV "http://" v)
    let proxies2 :=
      if (assocGet proxies1 "https").isNone then
        kvSetV proxies1 "https" (updateSchemeV "http://" v)
      else proxies1
    Except.ok { st with http := { st.http with proxies := proxies2 } }
  else if key = "https-proxy" then
    Except.ok
      { st with
        http :=
          { st.http with
            proxies := kvSetV st.http.proxies "https"
              (updateSchemeV "https://" v) } }
  else if key = "http-cookies" then
    match v with
    | .dict m =>
      Except.ok
        { st with http := { st.http with cookies := kvMerge st.http.cookies m } }
    | .str s =>
      (parseDelim ";" s).map fun kvs =>
        { st with http := { st.http with cookies := kvMerge st.http.cookies kvs } }
    | _ => Except.error SErr.invalidOption
  else if key = "http-headers" then
    match v with
    | .dict m =>
      Except.ok
        { st with http := { st.http with headers := kvMerge st.http.headers m } }
    | .str s =>
      (parseDelim ";" s).map fun kvs =>
        { st with http := { st.http with headers := kvMerge st.http.headers kvs } }
    | _ => Except.error SErr.invalidOption
  else if key = "http-query-params" then
    match v with
    | .dict m =>
      Except.ok
        { st with http := { st.http with params := kvMerge st.http.params m } }
    | .str s =>
      (parseDelim "&" s).map fun kvs =>
        { st with http := { st.http with params := kvMerge st.http.params kvs } }
    | _ => Except.error SErr.invalidOption
  else if key = "http-trust-env" then
    Except.ok { st with http := { st.http with trust_env := v } }
  else if key = "http-ssl-verify" then
    Except.ok { st with http := { st.http with verify := v } }
  else if key = "http-disable-dh" then
    Except.ok
      (if truthy v then { st with ciphers := st.ciphers ++ ":!DH" } else st)
  else if key = "http-ssl-cert" then
    Except.ok { st with http := { st.http with cert := v } }
  else if key = "http-timeout" then
    Except.ok { st with http := { st.http with timeout := v } }
  else if key = "http-report-uri" then
    let v' :=
      match v with
      | .str s => if !s.startsWith "http" then Value.str (b64 s) else .str s
      | other => other
    Except.ok { st with http := { st.http with report_uri := v' } }
  else if key = "http-report-interval" then
    Except.ok { st with http := { st.http with report_interval := v } }
  else if key = "stop-stream-playing" then
    Except.ok { st with http := { st.http with stop_stream_playing := v } }
  else if key = "error-http-status-codes" then
    Except.ok { st with http := { st.http with error_http_status_codes := v } }
  else
    Except.ok { st with options := optSet st.options key v }

/-- Translation of `Streamlink.get_option` (session.py lines 374-412):
the intercepted keys read transport state, everything else falls through to
the generic option store (`proxies.get` yields `None` when absent). -/
def get_option (st : SessionState) (key : String) : Value :=
  if key = "http-proxy" then (assocGet st.http.proxies "http").getD .vnone
  else if key = "https-proxy" then (assocGet st.http.proxies "https").getD .vnone
  else if key = "http-cookies" then .dict st.http.cookies
  else if key = "http-headers" then .dict st.http.headers
  else if key = "http-query-params" then .dict st.http.params
  else if key = "http-trust-env" then st.http.trust_env
  else if key = "http-ssl-verify" then st.http.verify
  else if key = "http-ssl-cert" then st.http.cert
  else if key = "http-timeout" then st.http.timeout
  else if key = "http-report-uri" then st.http.report_uri
  else if key = "http-report-interval" then st.http.report_interval
  else if key = "stop-stream-playing" then st.http.stop_stream_playing
  else if key = "error-http-status-codes" then st.http.error_http_status_codes
  else optGet st.options key

/-- A URL, split into its optional scheme and the remainder.  For a
scheme-less textual URL `u`, the string `http:// ++ u` corresponds to the
same `rest` with scheme `http`. -/
structure Url where
  scheme : Option String
  rest : String
deriving DecidableEq

/-- Modelled from the spec: `streamlink.utils.update_scheme` (not under
src/) on URLs — the default protocol `http` is prefixed when the URL has no
scheme, and a URL that already has a scheme is left unchanged. -/
def updateScheme (u : Url) : Url :=
  match u.scheme with
  | some _ => u
  | none => { scheme := some "http", rest := u.rest }

/-- Textual prefixing of `http://` to a scheme-less URL. -/
def withHttp (u : Url) : Url :=
  { scheme := some "http", rest := u.rest }

/-- A registered plugin class: its `can_handle_url` classmethod and its
`priority` classmethod. -/
structure PluginDesc where
  can_handle_url : Url → Bool
  priority : Url → Int

/-- A plugin instance, as produced by `available_plugins[0](url)`:
the selected class applied to the (normalized) URL. -/
structure PluginInstance where
  cls : PluginDesc
  url : Url

/-- The session's plugin registry: an ordered mapping from module name to
bound plugin class (`self.plugins`, an `OrderedDict`). -/
abbrev Registry := List (String × PluginDesc)

/-- OrderedDict assignment: overwriting an existing key keeps its position,
a new key is appended at the end. -/
def registrySet : Registry → String → PluginDesc → Registry
  | [], k, p => [(k, p)]
  | (k', p') :: rest, k, p =>
    if k' = k then (k', p) :: rest else (k', p') :: registrySet rest k p

/-- The memoization table installed by `functools.lru_cache` on
`resolve_url`, keyed by the raw call arguments `(url, follow_redirect)`.
Only values returned normally are stored — a raised `NoPluginError` is never
memoized.  The LRU eviction at 128 entries is not modelled; every statement
below involves fewer entries than the capacity. -/
abbrev ResolveCache := List ((Url × Bool) × PluginInstance)

/-- Lookup in the memoization table. -/
def cacheLookup : ResolveCache → Url × Bool → Option PluginInstance
  | [], _ => none
  | (k', i) :: rest, k => if k' = k then some i else cacheLookup rest k

/-- Result of one probe request issued by the transport collaborator:
either a transport failure (surfaced to session.py as `PluginError`) or a
response with its status code and final URL after redirects. -/
inductive ProbeRes where
  | err
  | ok (status : Nat) (finalUrl : Url)

/-- Outcome of `resolve_url`: a plugin instance returned normally, or the
`NoPluginError` exception. -/
inductive Outcome where
  | plugin (inst : PluginInstance)
  | noPlugin

/-- Observable work done by a resolve call: how many network probe requests
were issued and how many registry entries were tested with
`can_handle_url`. -/
structure Trace where
  probes : Nat
  matchEvals : Nat
deriving DecidableEq

/-- The empty trace of a pure cache hit. -/
def Trace.zero : Trace := ⟨0, 0⟩

/-- Stable insertion into a descending-sorted list: the new element goes
before the first strictly smaller key, and after all keys greater than or
equal to it that were already present. -/
def insertDesc {α : Type} (key : α → Int) (a : α) : List α → List α
  | [] => [a]
  | y :: ys =>
    if key a ≥ key y then a :: y :: ys else y :: insertDesc key a ys

/-- Stable descending sort, the semantics of Python's
`list.sort(key=..., reverse=True)`: descending keys, with elements of equal
key kept in their original order. -/
def sortDesc {α : Type} (key : α → Int) : List α → List α
  | [] => []
  | x :: xs => insertDesc key x (sortDesc key xs)

/-- The first element of maximal key, i.e. the element a stable descending
sort puts at the head. -/
def firstMaxBy {α : Type} (key : α → Int) : List α → Option α
  | [] => none
  | x :: xs =>
    match firstMaxBy key xs with
    | none => some x
    | some m => if key m > key x then some m else some x

/-- The registered plugin classes whose `can_handle_url` accepts the
normalized URL, in registry (insertion) order. -/
def matchers (reg : Registry) (url : Url) : List PluginDesc :=
  (reg.map Prod.snd).filter fun p => p.can_handle_url url

/-- The body of `Streamlink.resolve_url` (session.py lines 440-478), i.e.
the work done on a cache miss, after `lru_cache` has failed to find the
key.  `recurse` is the memoized wrapper itself, called by the redirect
branch on `res.url`; `hP` and `gP` are the transport collaborator's HEAD
and GET probes (`PluginError` from either is swallowed, and a `NoPluginError`
escaping the recursive call is caught by the same `except PluginError`
clause, both falling through to `raise NoPluginError`). -/
def resolveBody (reg : Registry) (hP gP : Url → ProbeRes)
    (recurse : ResolveCache → Url → Outcome × ResolveCache × Trace)
    (cache : ResolveCache) (url : Url) (f : Bool) :
    Outcome × ResolveCache × Trace :=
  let avail := matchers reg url
  let sorted := sortDesc (fun p => p.priority url) avail
  let follow : Url → Nat → Outcome × ResolveCache × Trace := fun resUrl pr =>
    if resUrl ≠ url then
      let r := recurse cache resUrl
      (r.1, r.2.1, ⟨pr + r.2.2.probes, reg.length + r.2.2.matchEvals⟩)
    else (.noPlugin, cache, ⟨pr, reg.length⟩)
  match sorted with
  | p :: _ => (.plugin ⟨p, url⟩, cache, ⟨0, reg.length⟩)
  | [] =>
    if f then
      match hP url with
      | .err => (.noPlugin, cache, ⟨1, reg.length⟩)
      | .ok status u1 =>
        if status = 501 then
          match gP url with
          | .err => (.noPlugin, cache, ⟨2, reg.length⟩)
          | .ok _ u2 => follow u2 2
        else follow u1 1
    else (.noPlugin, cache, ⟨0, reg.length⟩)

/-- The `lru_cache` wrapper logic of `resolve_url`: a hit on the raw key
`(url, follow_redirect)` is returned at once; on a miss the body runs on
the scheme-normalized URL and only a normal (plugin) return is recorded in
the table — a raised `NoPluginError` leaves the table untouched. -/
def resolveStep (reg : Registry) (hP gP : Url → ProbeRes)
    (recurse : ResolveCache → Url → Outcome × ResolveCache × Trace)
    (cache : ResolveCache) (url0 : Url) (f : Bool) :
    Outcome × ResolveCache × Trace :=
  match cacheLookup cache (url0, f) with
  | some inst => (.plugin inst, cache, Trace.zero)
  | none =>
    match resolveBody reg hP gP recurse cache (updateScheme url0) f with
    | (.plugin inst, c', t) => (.plugin inst, ((url0, f), inst) :: c', t)
    | (.noPlugin, c', t) => (.noPlugin, c', t)

/-- `Streamlink.resolve_url` as seen by callers: the memoized resolver.
The fuel bounds the redirect recursion, standing in for the transport
collaborator's bounded redirect chain (whose exhaustion surfaces as a
swallowed transport error, hence a plain `NoPluginError`). -/
def cachedResolve (reg : Registry) (hP gP : Url → ProbeRes) :
    Nat → ResolveCache → Url → Bool → Outcome × ResolveCache × Trace
  | 0, cache, url0, f =>
    resolveStep reg hP gP (fun c _ => (.noPlugin, c, Trace.zero)) cache url0 f
  | fuel + 1, cache, url0, f =>
    resolveStep reg hP gP (fun c u => cachedResolve reg hP gP fuel c u f)
      cache url0 f

/-- The resolver the redirect branch of a call at the given fuel recurses
into. -/
def nextResolver (reg : Registry) (hP gP : Url → ProbeRes) (fuel : Nat)
    (f : Bool) : ResolveCache → Url → Outcome × ResolveCache × Trace :=
  match fuel with
  | 0 => fun c _ => (.noPlugin, c, Trace.zero)
  | fuel' + 1 => fun c u => cachedResolve reg hP gP fuel' c u f

/-- Translation of `Streamlink.resolve_url_no_redirect` (session.py lines
480-491): the same memoized resolver with `follow_redirect=False`. -/
def resolveUrlNoRedirect (reg : Registry) (hP gP : Url → ProbeRes)
    (fuel : Nat) (cache : ResolveCache) (url : Url) :
    Outcome × ResolveCache × Trace :=
  cachedResolve reg hP gP fuel cache url false

/-- A candidate module found by `pkgutil.iter_modules` during
`load_plugins`: it either fails to import, lacks a valid `__plugin__`
capability attribute, or yields a plugin class. -/
inductive LoadResult where
  | importError
  | noCapability
  | ok (p : PluginDesc)

/-- A directory entry handed to `load_plugins`. -/
structure Candidate where
  name : String
  result : LoadResult

/-- Events written to the logger by `load_plugins`. -/
inductive LogEntry where
  | loadFailed (name : String)
  | overridden (name : String)
deriving DecidableEq

/-- Translation of `Streamlink.load_plugins` (session.py lines 512-538):
an `ImportError` is logged and the loop continues; a module without a valid
`__plugin__` is skipped (without logging); a valid module is bound under its
name, an override of an existing name is logged, and the success flag is
set.  Returns the updated registry, the success flag and the log, in loop
order. -/
def loadPlugins : List Candidate → Registry → Registry × Bool × List LogEntry
  | [], reg => (reg, false, [])
  | c :: cs, reg =>
    match c.result with
    | .importError =>
      let r := loadPlugins cs reg
      (r.1, r.2.1, .loadFailed c.name :: r.2.2)
    | .noCapability => loadPlugins cs reg
    | .ok p =>
      let logs0 : List LogEntry :=
        if (assocGet reg c.name).isSome then [.overridden c.name] else []
      let r := loadPlugins cs (registrySet reg c.name p)
      (r.1, true, logs0 ++ r.2.2)

/-- The option keys whose reads `get_option` intercepts, i.e. every
specialized key of `set_option` except `http-disable-dh` (and except
`interface`, `ipv4` and `ipv6`, whose stored flags intentionally live in the
generic store). -/
def interceptedGetKeys : List String :=
  [ "http-proxy", "https-proxy", "http-cookies", "http-headers",
    "http-query-params", "http-trust-env", "http-ssl-verify",
    "http-ssl-cert", "http-timeout", "http-report-uri",
    "http-report-interval", "stop-stream-playing",
    "error-http-status-codes" ]

/-- The intercepted keys whose `set_option` branch stores the value on the
transport collaborator unchanged. -/
def directTransportKeys : List String :=
  [ "http-trust-env", "http-ssl-verify", "http-ssl-cert", "http-timeout",
    "http-report-interval", "stop-stream-playing",
    "error-http-status-codes" ]

/-- Whether both address-family flags read as true — the state the
mutual-exclusion invariant forbids. -/
def bothIpFlags (st : SessionState) : Bool :=
  truthy (get_option st "ipv4") && truthy (get_option st "ipv6")

/-- A plugin class that accepts every URL, at default priority. -/
def pluginAlways : PluginDesc := ⟨fun _ => true, fun _ => 0⟩

/-- A plugin class that accepts no URL. -/
def pluginNever : PluginDesc := ⟨fun _ => false, fun _ => 0⟩

/-- A plugin class that accepts every URL at the given priority. -/
def pluginPri (n : Int) : PluginDesc := ⟨fun _ => true, fun _ => n⟩

/-- A URL that already carries a scheme. -/
def demoUrlHttp : Url := ⟨some "http", "example.com"⟩

/-- A scheme-less URL, as in the spec's scheme-defaulting example. -/
def demoUrlBare : Url := ⟨none, "example.com/x"⟩

/-- A transport whose every probe fails (unreachable network). -/
def probeErr : Url → ProbeRes := fun _ => ProbeRes.err

/-- Registry holding a single plugin that matches nothing. -/
def regNever : Registry := [("p", pluginNever)]

/-- Registry holding a single plugin that matches everything. -/
def regAlways : Registry := [("p", pluginAlways)]

/-- Registry with two matching plugins of priorities 1 and 2, registered in
that order. -/
def regPriority : Registry := [("a", pluginPri 1), ("b", pluginPri 2)]

/-- First resolve call of the failure-caching scenario: no plugin matches
and the probe fails, so the call raises `NoPluginError`. -/
def c1FirstCall : Outcome × ResolveCache × Trace :=
  cachedResolve regNever probeErr probeErr 5 [] demoUrlHttp true

/-- First resolve call of the normalization scenario: the scheme-less URL
resolves directly against the always-matching plugin. -/
def c3FirstCall : Outcome × ResolveCache × Trace :=
  cachedResolve regAlways probeErr probeErr 5 [] demoUrlBare true

/-- A session state whose generic option store holds a value under
`http-disable-dh` (as a fresh session would after `options.update`). -/
def dhStateA : SessionState :=
  { freshSession false with options := [("http-disable-dh", Value.str "configured")] }

/-- The same session state with an empty generic option store. -/
def dhStateB : SessionState :=
  { freshSession false with options := [] }

/-- The session state produced by `set_option("ipv4", True)` on a fresh
session. -/
def ipv4DemoState : SessionState :=
  { freshSession false with
    options := optSet (optSet (freshSession false).options "ipv4" (Value.bool true))
      "ipv6" (Value.bool false)
    gai_override := some AF.inet }

/-- Run `set_option("ipv4", True)` then `set_option("ipv6", False)` on a
fresh session. -/
def ipv4ThenIpv6Off : Except SErr SessionState :=
  (setOption (fun s => s) (freshSession false) "ipv4" (Value.bool true)).bind
    fun s1 => setOption (fun s => s) s1 "ipv6" (Value.bool false)

/-- A candidate module that imports fine but carries no valid `__plugin__`
capability attribute. -/
def candBad : Candidate := ⟨"bad", .noCapability⟩

/-- A candidate module that loads and validates. -/
def candGood : Candidate := ⟨"good", .ok pluginAlways⟩

theorem optGet_optSet_self (m : List (String × Value)) (k : String) (v : Value) :
    optGet (optSet m k v) k = v := by
  induction m with
  | nil => simp [optSet, optGet]
  | cons kv rest ih =>
    obtain ⟨k', v'⟩ := kv
    by_cases h : k' = k <;> simp [optSet, optGet, h, ih]

theorem optGet_optSet_ne (m : List (String × Value)) (k k' : String) (v : Value)
    (h : k' ≠ k) : optGet (optSet m k v) k' = optGet m k' := by
  induction m with
  | nil => simp [optSet, optGet, Ne.symm h]
  | cons kv rest ih =>
    obtain ⟨k'', v''⟩ := kv
    by_cases hh : k'' = k
    · subst hh
      simp [optSet, optGet, Ne.symm h]
    · simp [optSet, optGet, hh, ih]

theorem bothIpFlags_eq_options (st : SessionState) :
    bothIpFlags st =
      (truthy (optGet st.options "ipv4") && truthy (optGet st.options "ipv6")) := rfl

/-- C5: after any sequence of setOption calls starting from a fresh
session, at most one of getOption("ipv4") and getOption("ipv6") is true:
the flags are both false initially and every successful setOption call
preserves mutual exclusion, because setting either flag to a truthy value
stores False into the other one. -/
theorem ipv4_ipv6_mutually_exclusive :
    (∀ w : Bool, bothIpFlags (freshSession w) = false) ∧
    ∀ b64 st k v st', bothIpFlags st = false →
      setOption b64 st k v = Except.ok st' → bothIpFlags st' = false := by
  constructor
  · decide
  intro b64 st k v st' h1 h2
  simp only [setOption] at h2
  by_cases ha : k = "interface"
  · subst ha
    rw [if_pos rfl] at h2
    cases hi : interfaceLoop v st.http.adapters with
    | error e => rw [hi] at h2; simp [Except.map] at h2
    | ok ads =>
      rw [hi] at h2
      simp only [Except.map] at h2
      injection h2 with h2
      subst h2
      rw [bothIpFlags_eq_options]
      dsimp only
      rw [optGet_optSet_ne _ "interface" "ipv4" _ (by decide),
        optGet_optSet_ne _ "interface" "ipv6" _ (by decide)]
      exact h1
  rw [if_neg ha] at h2
  by_cases hb : k = "ipv4" ∨ k = "ipv6"
  · rw [if_pos hb] at h2
    by_cases hv : truthy v = true
    · rw [if_pos hv] at h2
      injection h2 with h2
      subst h2
      rcases hb with rfl | rfl <;>
        simp [bothIpFlags_eq_options, optGet_optSet_self, optGet_optSet_ne, truthy]
    · rw [if_neg hv] at h2
      have hv' : truthy v = false := by simpa using hv
      injection h2 with h2
      subst h2
      rw [bothIpFlags_eq_options] at h1
      rcases hb with rfl | rfl <;>
        simp [bothIpFlags_eq_options, optGet_optSet_self, optGet_optSet_ne, hv', h1]
  rw [if_neg hb] at h2
  by_cases hc : k = "http-proxy"
  · rw [if_pos hc] at h2
    injection h2 with h2; subst h2; exact h1
  rw [if_neg hc] at h2
  by_cases hd : k = "https-proxy"
  · rw [if_pos hd] at h2
    injection h2 with h2; subst h2; exact h1
  rw [if_neg hd] at h2
  by_cases he : k = "http-cookies"
  · rw [if_pos he] at h2
    split at h2
    · injection h2 with h2; subst h2; exact h1
    · rename_i s
      cases hp : parseDelim ";" s with
      | error e => rw [hp] at h2; simp [Except.map] at h2
      | ok kvs =>
        rw [hp] at h2
        simp only [Except.map] at h2
        injection h2 with h2; subst h2; exact h1
    · simp at h2
  rw [if_neg he] at h2
  by_cases hf : k = "http-headers"
  · rw [if_pos hf] at h2
    split at h2
    · injection h2 with h2; subst h2; exact h1
    · rename_i s
      cases hp : parseDelim ";" s with
      | error e => rw [hp] at h2; simp [Except.map] at h2
      | ok kvs =>
        rw [hp] at h2
        simp only [Except.map] at h2
        injection h2 with h2; subst h2; exact h1
    · simp at h2
  rw [if_neg hf] at h2
  by_cases hg : k = "http-query-params"
  · rw [if_pos hg] at h2
    split at h2
    · injection h2 with h2; subst h2; exact h1
    · rename_i s
      cases hp : parseDelim "&" s with
      | error e => rw [hp] at h2; simp [Except.map] at h2
      | ok kvs =>
        rw [hp] at h2
        simp only [Except.map] at h2
        injection h2 with h2; subst h2; exact h1
    · simp at h2
  rw [if_neg hg] at h2
  by_cases hh : k = "http-trust-env"
  · rw [if_pos hh] at h2
    injection h2 with h2; subst h2; exact h1
  rw [if_neg hh] at h2
  by_cases hi : k = "http-ssl-verify"
  · rw [if_pos hi] at h2
    injection h2 with h2; subst h2; exact h1
  rw [if_neg hi] at h2
  by_cases hj : k = "http-disable-dh"
  · rw [if_pos hj] at h2
    injection h2 with h2
    subst h2
    split <;> exact h1
  rw [if_neg hj] at h2
  by_cases hk : k = "http-ssl-cert"
  · rw [if_pos hk] at h2
    injection h2 with h2; subst h2; exact h1
  rw [if_neg hk] at h2
  by_cases hl : k = "http-timeout"
  · rw [if_pos hl] at h2
    injection h2 with h2; subst h2; exact h1
  rw [if_neg hl] at h2
  by_cases hm : k = "http-report-uri"
  · rw [if_pos hm] at h2
    injection h2 with h2; subst h2; exact h1
  rw [if_neg hm] at h2
  by_cases hn : k = "http-report-interval"
  · rw [if_pos hn] at h2
    injection h2 with h2; subst h2; exact h1
  rw [if_neg hn] at h2
  by_cases ho : k = "stop-stream-playing"
  · rw [if_pos ho] at h2
    injection h2 with h2; subst h2; exact h1
  rw [if_neg ho] at h2
  by_cases hq : k = "error-http-status-codes"
  · rw [if_pos hq] at h2
    injection h2 with h2; subst h2; exact h1
  rw [if_neg hq] at h2
  injection h2 with h2
  subst h2
  have h4 : ("ipv4" : String) ≠ k := fun hx => hb (Or.inl hx.symm)
  have h6 : ("ipv6" : String) ≠ k := fun hx => hb (Or.inr hx.symm)
  rw [bothIpFlags_eq_options]
  dsimp only
  rw [optGet_optSet_ne _ _ _ _ h4, optGet_optSet_ne _ _ _ _ h6]
  exact h1

/-- Witness for C5: setting ipv4 to True on a fresh session yields a state
whose flags are still mutually exclusive. -/
theorem ipv4_ipv6_mutually_exclusive_witness :
    bothIpFlags ipv4DemoState = false :=
  ipv4_ipv6_mutually_exclusive.2 (fun s => s) (freshSession false) "ipv4"
    (Value.bool true) ipv4DemoState (ipv4_ipv6_mutually_exclusive.1 false) rfl


/-- C6 (amended): the ipv4/ipv6 branch of setOption installs the matching
address-family override for a truthy value, and removes the override for a
falsy value unconditionally — regardless of the stored state of the other
flag. -/
theorem gai_override_follows_value (b64 : String → String) (st : SessionState)
    (k : String) (v : Value) (st' : SessionState)
    (hk : k = "ipv4" ∨ k = "ipv6")
    (h : setOption b64 st k v = Except.ok st') :
    st'.gai_override =
      if truthy v then some (if k = "ipv4" then AF.inet else AF.inet6)
      else none := by
  rcases hk with rfl | rfl <;>
  · simp only [setOption, String.reduceEq, reduceIte, true_or, or_true,
      false_or, or_false, if_true, if_false] at h
    by_cases hv : truthy v = true
    · rw [if_pos hv] at h
      injection h with h; subst h
      simp [hv]
    · rw [if_neg hv] at h
      injection h with h; subst h
      simp [hv]

/-- Counterexample for C6 as stated: set ipv4 to True (override installed,
ipv4 flag true), then set ipv6 to False.  The claim requires the IPv4-only
override to stay installed, because the ipv4 flag is still true; the code
removes the override unconditionally, leaving no override while
getOption("ipv4") is still true. -/
theorem gai_override_removed_despite_other_flag_cex :
    ipv4ThenIpv6Off.map
      (fun s => (s.gai_override, truthy (get_option s "ipv4"))) =
      Except.ok (none, true) := rfl

/-- Witness for C6 (amended): setting ipv4 to True on a fresh session
installs the IPv4-only override. -/
theorem gai_override_follows_value_witness :
    ipv4DemoState.gai_override = some AF.inet := by
  have h := gai_override_follows_value (fun s => s) (freshSession false)
    "ipv4" (Value.bool true) ipv4DemoState (Or.inl rfl) rfl
  simpa using h

theorem interfaceLoop_err (v : Value) (hv : truthy v = false) :
    ∀ ads : List (String × Option Value),
      (∀ p ∈ ads, p.2 = none) →
      (∃ p ∈ ads, p.1 = "http://" ∨ p.1 = "https://") →
      interfaceLoop v ads = Except.error SErr.keyError := by
  intro ads
  induction ads with
  | nil => intro _ h2; simp at h2
  | cons a rest ih =>
    intro h1 h2
    obtain ⟨scheme, kw⟩ := a
    by_cases hs : scheme ≠ "http://" ∧ scheme ≠ "https://"
    · have h2' : ∃ p ∈ rest, p.1 = "http://" ∨ p.1 = "https://" := by
        rcases h2 with ⟨p, hp, hor⟩
        rcases List.mem_cons.mp hp with rfl | hmem
        · rcases hor with h | h
          · exact absurd h hs.1
          · exact absurd h hs.2
        · exact ⟨p, hmem, hor⟩
      have h1' : ∀ p ∈ rest, p.2 = none := fun p hp =>
        h1 p (List.mem_cons_of_mem _ hp)
      simp [interfaceLoop, hs, ih h1' h2', Except.map]
    · have hkw : kw = none := h1 (scheme, kw) (List.mem_cons_self _ _)
      subst hkw
      simp [interfaceLoop, hs, hv]

/-- C10: on a session whose mounted HTTP adapters all lack a
`source_address` binding, setting "interface" to a falsy value raises a
KeyError from the unconditional `dict.pop`, instead of being a no-op. -/
theorem interface_falsy_raises_keyerror (b64 : String → String)
    (st : SessionState) (v : Value)
    (hv : truthy v = false)
    (h1 : ∀ p ∈ st.http.adapters, p.2 = none)
    (h2 : ∃ p ∈ st.http.adapters, p.1 = "http://" ∨ p.1 = "https://") :
    setOption b64 st "interface" v = Except.error SErr.keyError := by
  simp [setOption, interfaceLoop_err v hv st.http.adapters h1 h2, Except.map]

/-- Witness for C10: on a fresh session, clearing "interface" with None
raises KeyError. -/
theorem interface_falsy_raises_keyerror_witness :
    setOption (fun s => s) (freshSession false) "interface" Value.vnone =
      Except.error SErr.keyError :=
  interface_falsy_raises_keyerror (fun s => s) (freshSession false)
    Value.vnone rfl (by decide)
    ⟨("https://", none), by decide, Or.inr rfl⟩

/-- C4 (amended): on every intercepted key except http-disable-dh, a
getOption read depends only on the specialized transport state, never on
the generic option store; and for the keys stored verbatim on the
transport, getOption returns exactly what setOption stored. -/
theorem get_option_mirrors_intercepted (k : String) :
    (k ∈ interceptedGetKeys → ∀ st₁ st₂ : SessionState,
      st₁.http = st₂.http → get_option st₁ k = get_option st₂ k) ∧
    (k ∈ directTransportKeys → ∀ (b64 : String → String) (st : SessionState)
      (v : Value),
      (setOption b64 st k v).map (fun s => get_option s k) = Except.ok v) := by
  constructor
  · intro hk st₁ st₂ h
    simp only [interceptedGetKeys, List.mem_cons, List.not_mem_nil,
      or_false] at hk
    rcases hk with rfl | rfl | rfl | rfl | rfl | rfl | rfl | rfl | rfl | rfl |
      rfl | rfl | rfl <;> simp [get_option, h]
  · intro hk b64 st v
    simp only [directTransportKeys, List.mem_cons, List.not_mem_nil,
      or_false] at hk
    rcases hk with rfl | rfl | rfl | rfl | rfl | rfl | rfl <;> rfl

/-- Counterexample for C4 as stated: http-disable-dh is among setOption's
intercepted keys (its set branch mutates the global cipher list and stores
nothing in the option store), yet getOption("http-disable-dh") reads the
generic OptionStore: two states with identical transport/specialized state
but different stores give different reads. -/
theorem get_option_disable_dh_reads_store_cex :
    dhStateA.http = dhStateB.http ∧
    get_option dhStateA "http-disable-dh" = Value.str "configured" ∧
    get_option dhStateB "http-disable-dh" = Value.vnone ∧
    setOption (fun s => s) dhStateB "http-disable-dh" (Value.bool true) =
      Except.ok { dhStateB with ciphers := ":!DH" } := by
  refine ⟨rfl, by decide, by decide, rfl⟩

/-- Witness for C4 (amended), at the key http-trust-env: reads ignore the
option store, and a set/get round trip returns the value set. -/
theorem get_option_mirrors_intercepted_witness :
    get_option dhStateA "http-trust-env" = get_option dhStateB "http-trust-env" ∧
    (setOption (fun s => s) (freshSession false) "http-trust-env"
      (Value.bool false)).map (fun s => get_option s "http-trust-env") =
      Except.ok (Value.bool false) :=
  ⟨(get_option_mirrors_intercepted "http-trust-env").1 (by decide)
      dhStateA dhStateB rfl,
    (get_option_mirrors_intercepted "http-trust-env").2 (by decide)
      (fun s => s) (freshSession false) (Value.bool false)⟩


/-- Counterexample for C7 as stated: a candidate module that fails
capability validation is skipped silently — the log of the run is empty,
although the claim requires the failure to be logged.  (The remaining valid
module is still registered and the call returns true.) -/
theorem invalid_module_not_logged_cex :
    (loadPlugins [candBad, candGood] []).2.2 = [] ∧
    (assocGet (loadPlugins [candBad, candGood] []).1 "bad").isSome = false ∧
    (assocGet (loadPlugins [candBad, candGood] []).1 "good").isSome = true ∧
    (loadPlugins [candBad, candGood] []).2.1 = true :=
  ⟨rfl, rfl, rfl, rfl⟩

/-- C7 (amended): loadPlugins isolates per-module failures — an import
failure is logged and skipped, a capability-validation failure is skipped
silently, and in both cases the remaining candidates produce the same
registry and success flag as if the bad module were absent; the call
returns true iff some candidate module was registered. -/
theorem load_plugins_isolation_success :
    (∀ pre post reg c,
      c.result = LoadResult.importError ∨ c.result = LoadResult.noCapability →
      (loadPlugins (pre ++ c :: post) reg).1 = (loadPlugins (pre ++ post) reg).1 ∧
      (loadPlugins (pre ++ c :: post) reg).2.1 =
        (loadPlugins (pre ++ post) reg).2.1) ∧
    (∀ cands reg, (loadPlugins cands reg).2.1 = true ↔
      ∃ c ∈ cands, ∃ p, c.result = LoadResult.ok p) ∧
    (∀ c post reg, c.result = LoadResult.importError →
      (loadPlugins (c :: post) reg).2.2 =
        LogEntry.loadFailed c.name :: (loadPlugins post reg).2.2) := by
  refine ⟨?_, ?_, ?_⟩
  · intro pre post reg c hc
    induction pre generalizing reg with
    | nil =>
      rcases hc with hc | hc <;> simp [loadPlugins, hc]
    | cons a pre ih =>
      cases ha : a.result with
      | importError => simpa [loadPlugins, ha] using ih reg
      | noCapability => simpa [loadPlugins, ha] using ih reg
      | ok p =>
        have h := ih (registrySet reg a.name p)
        simp [loadPlugins, ha, h.1, h.2]
  · intro cands
    induction cands with
    | nil => intro reg; simp [loadPlugins]
    | cons a cands ih =>
      intro reg
      cases ha : a.result with
      | importError => simp [loadPlugins, ha, ih reg]
      | noCapability => simp [loadPlugins, ha, ih reg]
      | ok p => simp [loadPlugins, ha, ih (registrySet reg a.name p)]
  · intro c post reg hc
    simp [loadPlugins, hc]

/-- Witness for C7 (amended): a run over one invalid and one valid module,
applied to the isolation part and the success characterization. -/
theorem load_plugins_isolation_success_witness :
    (loadPlugins [candBad, candGood] []).1 = (loadPlugins [candGood] []).1 ∧
    ((loadPlugins [candBad, candGood] []).2.1 = true ↔
      ∃ c ∈ [candBad, candGood], ∃ p, c.result = LoadResult.ok p) :=
  ⟨(load_plugins_isolation_success.1 [] [candGood] [] candBad
      (Or.inr rfl)).1,
    load_plugins_isolation_success.2.1 [candBad, candGood] []⟩

theorem cacheLookup_cons_self (c : ResolveCache) (k : Url × Bool)
    (i : PluginInstance) : cacheLookup ((k, i) :: c) k = some i := by
  simp [cacheLookup]

theorem cachedResolve_step (reg : Registry) (hP gP : Url → ProbeRes)
    (fuel : Nat) (cache : ResolveCache) (u : Url) (f : Bool) :
    cachedResolve reg hP gP fuel cache u f =
      resolveStep reg hP gP (nextResolver reg hP gP fuel f) cache u f := by
  cases fuel <;> rfl

theorem resolveStep_success_lookup (reg : Registry) (hP gP : Url → ProbeRes)
    (recurse : ResolveCache → Url → Outcome × ResolveCache × Trace)
    (cache : ResolveCache) (u : Url) (f : Bool) (inst : PluginInstance)
    (c' : ResolveCache) (t : Trace)
    (h : resolveStep reg hP gP recurse cache u f = (.plugin inst, c', t)) :
    cacheLookup c' (u, f) = some inst := by
  unfold resolveStep at h
  cases hc : cacheLookup cache (u, f) with
  | some i =>
    simp only [hc] at h
    simp only [Prod.mk.injEq] at h
    obtain ⟨h1, h2, h3⟩ := h
    injection h1 with h1
    subst h1
    subst h2
    exact hc
  | none =>
    simp only [hc] at h
    rcases hb : resolveBody reg hP gP recurse cache (updateScheme u) f with ⟨o, c2, t2⟩
    rw [hb] at h
    cases o with
    | plugin i =>
      simp only [Prod.mk.injEq] at h
      obtain ⟨h1, h2, h3⟩ := h
      injection h1 with h1
      subst h1
      subst h2
      exact cacheLookup_cons_self _ _ _
    | noPlugin => simp at h

/-- C1 (amended): once resolve(u, f) has returned a plugin instance, any
later resolve(u, f) call on the resulting cache state is a pure cache hit:
it returns the same instance, leaves the cache unchanged and performs no
plugin matching and no network probing (its trace is zero).  A NoPlugin
failure is not memoized by the lru_cache wrapper, so failed resolutions do
not enjoy this (see the counterexample). -/
theorem resolve_success_cached (reg : Registry) (hP gP : Url → ProbeRes)
    (fuel fuelLater : Nat) (cache : ResolveCache) (u : Url) (f : Bool)
    (inst : PluginInstance) (c' : ResolveCache) (t : Trace)
    (h : cachedResolve reg hP gP fuel cache u f = (.plugin inst, c', t)) :
    cachedResolve reg hP gP fuelLater c' u f =
      (.plugin inst, c', Trace.zero) := by
  rw [cachedResolve_step] at h
  have hl : cacheLookup c' (u, f) = some inst :=
    resolveStep_success_lookup reg hP gP _ cache u f inst c' t h
  rw [cachedResolve_step]
  unfold resolveStep
  simp [hl]

/-- Counterexample for C1 as stated: with one non-matching plugin and a
failing probe, resolve raises NoPlugin; the failure is not cached (the
cache stays empty), and the immediately following identical call re-runs
matching (one can_handle_url evaluation) and re-probes the network (one
probe) instead of being served from the cache. -/
theorem noPlugin_outcome_not_cached_cex :
    c1FirstCall.1 = Outcome.noPlugin ∧
    c1FirstCall.2.1 = [] ∧
    (cachedResolve regNever probeErr probeErr 5 c1FirstCall.2.1
      demoUrlHttp true).2.2 = ⟨1, 1⟩ ∧
    (⟨1, 1⟩ : Trace) ≠ Trace.zero :=
  ⟨rfl, rfl, rfl, by decide⟩

/-- Witness for C1 (amended): after a successful direct-match resolve, the
repeated call is a pure cache hit with zero trace. -/
theorem resolve_success_cached_witness :
    cachedResolve regAlways probeErr probeErr 5
      [((demoUrlHttp, true), ⟨pluginAlways, demoUrlHttp⟩)] demoUrlHttp true =
      (.plugin ⟨pluginAlways, demoUrlHttp⟩,
        [((demoUrlHttp, true), ⟨pluginAlways, demoUrlHttp⟩)], Trace.zero) :=
  resolve_success_cached regAlways probeErr probeErr 5 5 [] demoUrlHttp true
    ⟨pluginAlways, demoUrlHttp⟩
    [((demoUrlHttp, true), ⟨pluginAlways, demoUrlHttp⟩)] ⟨0, 1⟩ rfl

theorem insertDesc_ne_nil {α : Type} (key : α → Int) (a : α) (l : List α) :
    insertDesc key a l ≠ [] := by
  cases l with
  | nil => simp [insertDesc]
  | cons y ys =>
    simp only [insertDesc]
    split <;> simp

theorem sortDesc_eq_nil {α : Type} (key : α → Int) (l : List α) :
    sortDesc key l = [] ↔ l = [] := by
  cases l with
  | nil => simp [sortDesc]
  | cons x xs => simp [sortDesc, insertDesc_ne_nil]

theorem insertDesc_headq {α : Type} (key : α → Int) (a y : α) (ys : List α) :
    (insertDesc key a (y :: ys)).head? =
      some (if key a ≥ key y then a else y) := by
  simp only [insertDesc]
  split <;> simp [*]

theorem firstMaxBy_ne_none {α : Type} (key : α → Int) (x : α) (xs : List α) :
    firstMaxBy key (x :: xs) ≠ none := by
  cases hf : firstMaxBy key xs with
  | none => simp [firstMaxBy, hf]
  | some mx =>
    simp only [firstMaxBy, hf]
    split <;> simp

/-- The head of the stable descending sort is the earliest element of
maximal key. -/
theorem sortDesc_headq {α : Type} (key : α → Int) (l : List α) :
    (sortDesc key l).head? = firstMaxBy key l := by
  induction l with
  | nil => rfl
  | cons x xs ih =>
    simp only [sortDesc, firstMaxBy]
    cases hs : sortDesc key xs with
    | nil =>
      have hxs : xs = [] := (sortDesc_eq_nil key xs).mp hs
      subst hxs
      simp [insertDesc, firstMaxBy]
    | cons y ys =>
      rw [hs] at ih
      have ihy : firstMaxBy key xs = some y := by rw [← ih]; rfl
      rw [insertDesc_headq]
      simp only [ihy]
      by_cases hxy : key x ≥ key y
      · rw [if_pos hxy, if_neg (show ¬ key y > key x by omega)]
      · rw [if_neg hxy, if_pos (show key y > key x by omega)]

/-- The element picked by firstMaxBy is a member, carries the maximal key,
and is the earliest one to do so. -/
theorem firstMaxBy_spec {α : Type} (key : α → Int) :
    ∀ (l : List α) (m : α), firstMaxBy key l = some m →
      m ∈ l ∧ (∀ q ∈ l, key q ≤ key m) ∧
      ∃ pre post, l = pre ++ m :: post ∧ ∀ q ∈ pre, key q < key m := by
  intro l
  induction l with
  | nil => intro m h; simp [firstMaxBy] at h
  | cons x xs ih =>
    intro m h
    simp only [firstMaxBy] at h
    cases hf : firstMaxBy key xs with
    | none =>
      simp only [hf] at h
      injection h with h
      subst h
      have hxs : xs = [] := by
        cases xs with
        | nil => rfl
        | cons a as => exact absurd hf (firstMaxBy_ne_none key a as)
      subst hxs
      exact ⟨List.mem_cons_self _ _, by simp, [], [], rfl, by simp⟩
    | some mx =>
      simp only [hf] at h
      obtain ⟨hmem', hle', pre', post', hdec', hlt'⟩ := ih mx hf
      split at h
      · rename_i hgt
        injection h with h
        subst h
        refine ⟨List.mem_cons_of_mem _ hmem', ?_, x :: pre', post', ?_, ?_⟩
        · intro q hq
          rcases List.mem_cons.mp hq with rfl | hq
          · omega
          · exact hle' q hq
        · rw [List.cons_append, hdec']
        · intro q hq
          rcases List.mem_cons.mp hq with rfl | hq
          · exact hgt
          · exact hlt' q hq
      · rename_i hngt
        injection h with h
        subst h
        refine ⟨List.mem_cons_self _ _, ?_, [], xs, rfl, by simp⟩
        intro q hq
        rcases List.mem_cons.mp hq with rfl | hq
        · exact le_refl _
        · have := hle' q hq
          omega

theorem sortDesc_cons_of_ne_nil {α : Type} (key : α → Int) (l : List α)
    (h : l ≠ []) : ∃ m rest, sortDesc key l = m :: rest := by
  cases hs : sortDesc key l with
  | nil => exact absurd ((sortDesc_eq_nil key l).mp hs) h
  | cons a as => exact ⟨a, as, rfl⟩

/-- C2: on a cache miss, when at least one registered plugin matches the
normalized URL, resolve returns an instance of the earliest-registered
plugin among those of maximal priority, applied to the normalized URL. -/
theorem resolve_selects_max_priority_earliest (reg : Registry)
    (hP gP : Url → ProbeRes) (fuel : Nat) (cache : ResolveCache) (u : Url)
    (f : Bool)
    (hmiss : cacheLookup cache (u, f) = none)
    (hne : matchers reg (updateScheme u) ≠ []) :
    ∃ m, firstMaxBy (fun p => p.priority (updateScheme u))
        (matchers reg (updateScheme u)) = some m ∧
      (cachedResolve reg hP gP fuel cache u f).1 =
        Outcome.plugin ⟨m, updateScheme u⟩ ∧
      m ∈ matchers reg (updateScheme u) ∧
      (∀ q ∈ matchers reg (updateScheme u),
        q.priority (updateScheme u) ≤ m.priority (updateScheme u)) ∧
      ∃ pre post, matchers reg (updateScheme u) = pre ++ m :: post ∧
        ∀ q ∈ pre, q.priority (updateScheme u) < m.priority (updateScheme u) := by
  obtain ⟨m, rest, hsort⟩ :=
    sortDesc_cons_of_ne_nil (fun p => p.priority (updateScheme u))
      (matchers reg (updateScheme u)) hne
  have hfm : firstMaxBy (fun p => p.priority (updateScheme u))
      (matchers reg (updateScheme u)) = some m := by
    rw [← sortDesc_headq, hsort]
    rfl
  obtain ⟨hmem, hle, pre, post, hdec, hlt⟩ :=
    firstMaxBy_spec (fun p => p.priority (updateScheme u)) _ m hfm
  refine ⟨m, hfm, ?_, hmem, hle, pre, post, hdec, hlt⟩
  rw [cachedResolve_step]
  simp [resolveStep, resolveBody, hmiss, hsort]

/-- Witness for C2: among two always-matching plugins of priorities 1 and
2, resolve picks the one of priority 2. -/
theorem resolve_selects_max_priority_earliest_witness :
    ∃ m, firstMaxBy (fun p => p.priority (updateScheme demoUrlHttp))
        (matchers regPriority (updateScheme demoUrlHttp)) = some m ∧
      (cachedResolve regPriority probeErr probeErr 5 [] demoUrlHttp true).1 =
        Outcome.plugin ⟨m, updateScheme demoUrlHttp⟩ ∧
      m ∈ matchers regPriority (updateScheme demoUrlHttp) ∧
      (∀ q ∈ matchers regPriority (updateScheme demoUrlHttp),
        q.priority (updateScheme demoUrlHttp) ≤
          m.priority (updateScheme demoUrlHttp)) ∧
      ∃ pre post,
        matchers regPriority (updateScheme demoUrlHttp) = pre ++ m :: post ∧
        ∀ q ∈ pre, q.priority (updateScheme demoUrlHttp) <
          m.priority (updateScheme demoUrlHttp) :=
  resolve_selects_max_priority_earliest regPriority probeErr probeErr 5 []
    demoUrlHttp true rfl (fun h => List.noConfusion h)

/-- C3 (amended): the memoization key is the RAW call argument, not the
normalized URL.  A successful direct-match resolve of a scheme-less URL u
populates the cache under (u, f) only, and leaves the entry for the
http-prefixed spelling of u untouched — the two spellings address distinct
cache entries (the counterexample shows the second call re-running
matching), although both select the same plugin. -/
theorem cache_keyed_by_raw_url (reg : Registry) (hP gP : Url → ProbeRes)
    (fuel : Nat) (cache : ResolveCache) (u : Url) (f : Bool) (o : Outcome)
    (c' : ResolveCache) (t : Trace)
    (hu : u.scheme = none)
    (hmiss : cacheLookup cache (u, f) = none)
    (hne : matchers reg (updateScheme u) ≠ [])
    (h : cachedResolve reg hP gP fuel cache u f = (o, c', t)) :
    (cacheLookup c' (u, f)).isSome = true ∧
    cacheLookup c' (withHttp u, f) = cacheLookup cache (withHttp u, f) := by
  rw [cachedResolve_step] at h
  obtain ⟨m, rest, hsort⟩ :=
    sortDesc_cons_of_ne_nil (fun p => p.priority (updateScheme u))
      (matchers reg (updateScheme u)) hne
  simp only [resolveStep, resolveBody, hmiss, hsort] at h
  simp only [Prod.mk.injEq] at h
  obtain ⟨h1, h2, h3⟩ := h
  subst h2
  have hkey : ((u, f) : Url × Bool) ≠ (withHttp u, f) := by
    intro he
    have hs := congrArg (fun p : Url × Bool => p.1.scheme) he
    simp [withHttp, hu] at hs
  constructor
  · simp [cacheLookup]
  · simp [cacheLookup, hkey]

/-- Counterexample for C3 as stated: resolving the scheme-less URL caches
under the raw key only; the follow-up call on the http-prefixed URL misses
the cache and re-runs plugin matching (one can_handle_url evaluation,
nonzero trace) rather than being served from the cache. -/
theorem cache_key_not_normalized_cex :
    (cacheLookup c3FirstCall.2.1 (demoUrlBare, true)).isSome = true ∧
    cacheLookup c3FirstCall.2.1 (withHttp demoUrlBare, true) = none ∧
    (cachedResolve regAlways probeErr probeErr 5 c3FirstCall.2.1
      (withHttp demoUrlBare) true).2.2 = ⟨0, 1⟩ ∧
    (⟨0, 1⟩ : Trace) ≠ Trace.zero :=
  ⟨rfl, rfl, rfl, by decide⟩

/-- Witness for C3 (amended): the direct-match resolve of the scheme-less
demo URL caches under the raw key and leaves the prefixed key absent. -/
theorem cache_keyed_by_raw_url_witness :
    (cacheLookup c3FirstCall.2.1 (demoUrlBare, true)).isSome = true ∧
    cacheLookup c3FirstCall.2.1 (withHttp demoUrlBare, true) =
      cacheLookup [] (withHttp demoUrlBare, true) :=
  cache_keyed_by_raw_url regAlways probeErr probeErr 5 [] demoUrlBare true
    c3FirstCall.1 c3FirstCall.2.1 c3FirstCall.2.2 rfl rfl
    (fun h => List.noConfusion h) rfl

/-- C9: scheme defaulting is idempotent with respect to plugin selection —
with both raw spellings absent from the cache, resolving a scheme-less URL
and resolving its http-prefixed spelling produce the same outcome, because
both normalize to the same URL before any matching or probing. -/
theorem scheme_defaulting_idempotent (reg : Registry)
    (hP gP : Url → ProbeRes) (fuel : Nat) (cache : ResolveCache) (u : Url)
    (f : Bool)
    (hu : u.scheme = none)
    (h0 : cacheLookup cache (u, f) = none)
    (h1 : cacheLookup cache (withHttp u, f) = none) :
    (cachedResolve reg hP gP fuel cache u f).1 =
      (cachedResolve reg hP gP fuel cache (withHttp u) f).1 := by
  rw [cachedResolve_step, cachedResolve_step]
  have hnorm : updateScheme u = withHttp u := by
    obtain ⟨sch, rest⟩ := u
    cases sch with
    | none => rfl
    | some s => exact absurd hu (by simp)
  have hnorm2 : updateScheme (withHttp u) = withHttp u := rfl
  unfold resolveStep
  simp only [h0, h1, hnorm, hnorm2]
  rcases hB : resolveBody reg hP gP (nextResolver reg hP gP fuel f) cache
    (withHttp u) f with ⟨o, c2, t2⟩
  cases o <;> rfl

/-- Witness for C9: the scheme-less demo URL and its prefixed spelling
yield the same outcome on the always-matching registry. -/
theorem scheme_defaulting_idempotent_witness :
    (cachedResolve regAlways probeErr probeErr 5 [] demoUrlBare true).1 =
      (cachedResolve regAlways probeErr probeErr 5 [] (withHttp demoUrlBare)
        true).1 :=
  scheme_defaulting_idempotent regAlways probeErr probeErr 5 [] demoUrlBare
    true rfl rfl rfl

/-- C8: resolveUrlNoRedirect is resolve with followRedirect = False; it
performs no network probe in any case (zero probes in its trace for every
registry, transport, fuel, cache and URL), and on a cache miss with no
matching plugin it fails with NoPlugin immediately. -/
theorem resolve_no_redirect_no_network :
    (∀ (reg : Registry) (hP gP : Url → ProbeRes) (fuel : Nat)
      (cache : ResolveCache) (u : Url),
      resolveUrlNoRedirect reg hP gP fuel cache u =
        cachedResolve reg hP gP fuel cache u false ∧
      (resolveUrlNoRedirect reg hP gP fuel cache u).2.2.probes = 0) ∧
    (∀ (reg : Registry) (hP gP : Url → ProbeRes) (fuel : Nat)
      (cache : ResolveCache) (u : Url),
      cacheLookup cache (u, false) = none →
      matchers reg (updateScheme u) = [] →
      (resolveUrlNoRedirect reg hP gP fuel cache u).1 = Outcome.noPlugin) := by
  constructor
  · intro reg hP gP fuel cache u
    refine ⟨rfl, ?_⟩
    unfold resolveUrlNoRedirect
    rw [cachedResolve_step]
    unfold resolveStep
    cases hc : cacheLookup cache (u, false) with
    | some i => simp [hc, Trace.zero]
    | none =>
      simp only [hc]
      cases hs : sortDesc (fun p => p.priority (updateScheme u))
        (matchers reg (updateScheme u)) with
      | cons p ps => simp [resolveBody, hs]
      | nil => simp [resolveBody, hs]
  · intro reg hP gP fuel cache u hmiss hno
    unfold resolveUrlNoRedirect
    rw [cachedResolve_step]
    unfold resolveStep
    simp only [hmiss]
    have hs : sortDesc (fun p => p.priority (updateScheme u))
        (matchers reg (updateScheme u)) = [] := by
      rw [hno]
      rfl
    simp [resolveBody, hs]

/-- Witness for C8: on the never-matching registry, the no-redirect resolve
issues zero probes and fails with NoPlugin. -/
theorem resolve_no_redirect_no_network_witness :
    (resolveUrlNoRedirect regNever probeErr probeErr 5 [] demoUrlHttp).2.2.probes = 0 ∧
    (resolveUrlNoRedirect regNever probeErr probeErr 5 [] demoUrlHttp).1 =
      Outcome.noPlugin :=
  ⟨(resolve_no_redirect_no_network.1 regNever probeErr probeErr 5 []
      demoUrlHttp).2,
    resolve_no_redirect_no_network.2 regNever probeErr probeErr 5 []
      demoUrlHttp rfl rfl⟩

end StreamlinkSession
